import Mathlib

/-!
Shallow embedding of `sample_lambda/python/lambda.py` (Alexa Smart Home
sample: version detection, v2/v3 directive dispatch, v2-appliance to
v3-endpoint mapping), together with theorems settling the claims about it.

JSON-shaped Python dicts/lists are modelled by the `Json` type; a Python
field access `x["k"]` is `Json.getItem`, which fails with a `PyErr.keyError`
when the key is absent (and `PyErr.typeError` on a non-dict), mirroring the
exceptions the interpreter raises.  External effects (uuid generation,
clocks, the DynamoDB users table, `urlparse`, the response validator) are
passed in an `Env` record.
-/

inductive Json where
  | null : Json
  | bool : Bool → Json
  | num : Int → Json
  | str : String → Json
  | arr : List Json → Json
  | obj : List (String × Json) → Json

instance : Inhabited Json := ⟨Json.null⟩

inductive PyErr where
  | keyError : String → PyErr
  | typeError : PyErr
  | unboundLocalError : PyErr
  | valueError : PyErr

/-- Python `x[k]` on a JSON value: key lookup in a dict, `KeyError` when the
key is absent, `TypeError` when `x` is not a dict. -/
def Json.getItem (j : Json) (k : String) : Except PyErr Json :=
  match j with
  | .obj fs =>
    match fs.find? (fun p => p.1 == k) with
    | some p => .ok p.2
    | none => .error (.keyError k)
  | _ => .error .typeError

/-- Iterated `getItem`: Python `x[k1][k2]...[kn]`. -/
def Json.getPath (j : Json) (ks : List String) : Except PyErr Json :=
  match ks with
  | [] => .ok j
  | k :: ks => match j.getItem k with
    | .ok v => v.getPath ks
    | .error e => .error e

/-- Python `k in x` for a dict `x` (the handlers only apply it to dicts). -/
def Json.hasKey (j : Json) (k : String) : Bool :=
  match j with
  | .obj fs => fs.any (fun p => p.1 == k)
  | _ => false

/-- Python `v == s` where `v` is a JSON value and `s` a string literal:
true exactly when `v` is that string. -/
def Json.eqStr (j : Json) (s : String) : Bool :=
  match j with
  | .str t => t == s
  | _ => false

/-- One `client_endpoint` sub-record of a users-table item. -/
structure ClientEndpoint where
  url : String
  username : String
  password : String

/-- One item of the external DynamoDB `users` table, as the camera handler
reads it: a `stream_token` attribute and a `client_endpoint` map. -/
structure UserRecord where
  stream_token : String
  client_endpoint : ClientEndpoint

/-- External collaborators of one invocation: `get_uuid()` (messageId),
`get_utc_timestamp()`, `datetime.now().strftime(...)`, the users-table
contents, `urlparse(...).hostname` / `.port` (as the string `format`
renders), and the outcome of the external `validate_message` call
(modelled from the spec: the validation module is not part of this file;
it raises on schema violation). -/
structure Env where
  uuid : String
  utcTimestamp : String
  nowTimestamp : String
  users : List UserRecord
  urlHostname : String → String
  urlPort : String → String
  validateOk : Json → Option Json → Bool

/-- The in-memory catalog `APPLIANCE` from the source, verbatim. -/
def APPLIANCE : List Json :=
  [Json.obj [
    ("applianceId", Json.str "endpoint-001"),
    ("manufacturerName", Json.str "Smart Doorman"),
    ("modelName", Json.str "Smart Camera"),
    ("version", Json.str "1"),
    ("friendlyName", Json.str "Smart Camera"),
    ("friendlyDescription", Json.str "Camera that tells you what\x27s there using machine learning"),
    ("isReachable", Json.bool true),
    ("actions", Json.arr [Json.str "retrieveCameraStreamUri"]),
    ("additionalApplianceDetails", Json.obj [])]]

/-- `handle_discovery()`: the legacy discovery response, catalog verbatim. -/
def handle_discovery (env : Env) : Json :=
  Json.obj [
    ("header", Json.obj [
      ("namespace", Json.str "Alexa.ConnectedHome.Discovery"),
      ("name", Json.str "DiscoverAppliancesResponse"),
      ("payloadVersion", Json.str "2"),
      ("messageId", Json.str env.uuid)]),
    ("payload", Json.obj [
      ("discoveredAppliances", Json.arr APPLIANCE)])]

/-- `handle_non_discovery(request)`: the legacy control handler.  The local
`header` is assigned only in the `TurnOnRequest` / `TurnOffRequest`
branches; for every other name, building the response raises
`UnboundLocalError`. -/
def handle_non_discovery (env : Env) (request : Json) : Except PyErr Json := do
  let request_name ← request.getPath ["header", "name"]
  if request_name.eqStr "TurnOnRequest" then
    pure (Json.obj [
      ("header", Json.obj [
        ("namespace", Json.str "Alexa.ConnectedHome.Control"),
        ("name", Json.str "TurnOnConfirmation"),
        ("payloadVersion", Json.str "2"),
        ("messageId", Json.str env.uuid)]),
      ("payload", Json.obj [])])
  else if request_name.eqStr "TurnOffRequest" then
    pure (Json.obj [
      ("header", Json.obj [
        ("namespace", Json.str "Alexa.ConnectedHome.Control"),
        ("name", Json.str "TurnOffConfirmation"),
        ("payloadVersion", Json.str "2"),
        ("messageId", Json.str env.uuid)]),
      ("payload", Json.obj [])])
  else
    .error .unboundLocalError

/-- The camera-stream capability dict from `get_capabilities_from_v2_appliance`. -/
def camera_stream_capability : Json :=
  Json.obj [
    ("type", Json.str "AlexaInterface"),
    ("interface", Json.str "Alexa.CameraStreamController"),
    ("version", Json.str "3"),
    ("cameraStreamConfigurations", Json.arr [Json.obj [
      ("protocols", Json.arr [Json.str "RTSP"]),
      ("resolutions", Json.arr [Json.obj [("width", Json.num 640), ("height", Json.num 480)]]),
      ("authorizationTypes", Json.arr [Json.str "NONE"]),
      ("videoCodecs", Json.arr [Json.str "H264"]),
      ("audioCodecs", Json.arr [Json.str "AAC"])]])]

/-- The power-control capability dict from `get_capabilities_from_v2_appliance`. -/
def power_controller_capability : Json :=
  Json.obj [
    ("type", Json.str "AlexaInterface"),
    ("interface", Json.str "Alexa.PowerController"),
    ("version", Json.str "3"),
    ("properties", Json.obj [
      ("supported", Json.arr [Json.obj [("name", Json.str "powerState")]]),
      ("proactivelyReported", Json.bool true),
      ("retrievable", Json.bool true)])]

/-- `endpoint_health_capability` from `get_capabilities_from_v2_appliance`. -/
def endpoint_health_capability : Json :=
  Json.obj [
    ("type", Json.str "AlexaInterface"),
    ("interface", Json.str "Alexa.EndpointHealth"),
    ("version", Json.str "3"),
    ("properties", Json.obj [
      ("supported", Json.arr [Json.obj [("name", Json.str "connectivity")]]),
      ("proactivelyReported", Json.bool true),
      ("retrievable", Json.bool true)])]

/-- `alexa_interface_capability` from `get_capabilities_from_v2_appliance`. -/
def alexa_interface_capability : Json :=
  Json.obj [
    ("type", Json.str "AlexaInterface"),
    ("interface", Json.str "Alexa"),
    ("version", Json.str "3")]

/-- `get_capabilities_from_v2_appliance(appliance)`: model-specific
descriptor first ("Smart Camera" gets the camera-stream one, everything
else power control), then the health descriptor and the base Alexa
descriptor are appended. -/
def get_capabilities_from_v2_appliance (appliance : Json) : Except PyErr (List Json) := do
  let model_name ← appliance.getItem "modelName"
  let capabilities :=
    if model_name.eqStr "Smart Camera" then [camera_stream_capability]
    else [power_controller_capability]
  pure (capabilities ++ [endpoint_health_capability, alexa_interface_capability])

/-- `get_display_categories_from_v2_appliance(appliance)`. -/
def get_display_categories_from_v2_appliance (appliance : Json) : Except PyErr Json := do
  let model_name ← appliance.getItem "modelName"
  if model_name.eqStr "Smart Switch" then pure (Json.arr [Json.str "SWITCH"])
  else if model_name.eqStr "Smart Light" then pure (Json.arr [Json.str "LIGHT"])
  else if model_name.eqStr "Smart White Light" then pure (Json.arr [Json.str "LIGHT"])
  else if model_name.eqStr "Smart Thermostat" then pure (Json.arr [Json.str "THERMOSTAT"])
  else if model_name.eqStr "Smart Lock" then pure (Json.arr [Json.str "SMARTLOCK"])
  else if model_name.eqStr "Smart Scene" then pure (Json.arr [Json.str "SCENE_TRIGGER"])
  else if model_name.eqStr "Smart Activity" then pure (Json.arr [Json.str "ACTIVITY_TRIGGER"])
  else if model_name.eqStr "Smart Camera" then pure (Json.arr [Json.str "CAMERA"])
  else pure (Json.arr [Json.str "OTHER"])

/-- `get_endpoint_from_v2_appliance(appliance)`: identifier, manufacturer,
friendly name, description and cookie are direct copies; display
categories and capabilities are then filled in. -/
def get_endpoint_from_v2_appliance (appliance : Json) : Except PyErr Json := do
  let applianceId ← appliance.getItem "applianceId"
  let manufacturerName ← appliance.getItem "manufacturerName"
  let friendlyName ← appliance.getItem "friendlyName"
  let friendlyDescription ← appliance.getItem "friendlyDescription"
  let additionalApplianceDetails ← appliance.getItem "additionalApplianceDetails"
  let displayCategories ← get_display_categories_from_v2_appliance appliance
  let capabilities ← get_capabilities_from_v2_appliance appliance
  pure (Json.obj [
    ("endpointId", applianceId),
    ("manufacturerName", manufacturerName),
    ("friendlyName", friendlyName),
    ("description", friendlyDescription),
    ("displayCategories", displayCategories),
    ("cookie", additionalApplianceDetails),
    ("capabilities", Json.arr capabilities)])

/-- `handle_discovery_v3(request)`: every catalog record mapped to a v3
endpoint inside a `Discover.Response` event. -/
def handle_discovery_v3 (env : Env) (_request : Json) : Except PyErr Json := do
  let endpoints ← APPLIANCE.mapM get_endpoint_from_v2_appliance
  pure (Json.obj [
    ("event", Json.obj [
      ("header", Json.obj [
        ("namespace", Json.str "Alexa.Discovery"),
        ("name", Json.str "Discover.Response"),
        ("payloadVersion", Json.str "3"),
        ("messageId", Json.str env.uuid)]),
      ("payload", Json.obj [
        ("endpoints", Json.arr endpoints)])])])

/-- `get_directive_version(request)`: nested bare try/except fallback chain. -/
def get_directive_version (request : Json) : Json :=
  match request.getPath ["directive", "header", "payloadVersion"] with
  | .ok v => v
  | .error _ =>
    match request.getPath ["header", "payloadVersion"] with
    | .ok v => v
    | .error _ => Json.str "-1"

/-- The `StateReport` response dict built in the `Alexa` / `ReportState`
branch of `handle_non_discovery_v3`. -/
def state_report_response (env : Env) (correlationToken token : Json) : Json :=
  Json.obj [
    ("context", Json.obj [
      ("properties", Json.arr [Json.obj [
        ("namespace", Json.str "Alexa.EndpointHealth"),
        ("name", Json.str "connectivity"),
        ("value", Json.obj [("value", Json.str "OK")]),
        ("timeOfSample", Json.str env.nowTimestamp),
        ("uncertaintyInMilliseconds", Json.num 200)]])]),
    ("event", Json.obj [
      ("header", Json.obj [
        ("namespace", Json.str "Alexa"),
        ("name", Json.str "StateReport"),
        ("payloadVersion", Json.str "3"),
        ("messageId", Json.str env.uuid),
        ("correlationToken", correlationToken)]),
      ("endpoint", Json.obj [
        ("scope", Json.obj [
          ("type", Json.str "BearerToken"),
          ("token", token)]),
        ("endpointId", Json.str "endpoint-001")]),
      ("payload", Json.obj [])])]

/-- The response dict built in the `Alexa.PowerController` branch of
`handle_non_discovery_v3`. -/
def power_controller_response (env : Env) (value : String)
    (correlationToken token endpointId : Json) : Json :=
  Json.obj [
    ("context", Json.obj [
      ("properties", Json.arr [Json.obj [
        ("namespace", Json.str "Alexa.PowerController"),
        ("name", Json.str "powerState"),
        ("value", Json.str value),
        ("timeOfSample", Json.str env.utcTimestamp),
        ("uncertaintyInMilliseconds", Json.num 500)]])]),
    ("event", Json.obj [
      ("header", Json.obj [
        ("namespace", Json.str "Alexa"),
        ("name", Json.str "Response"),
        ("payloadVersion", Json.str "3"),
        ("messageId", Json.str env.uuid),
        ("correlationToken", correlationToken)]),
      ("endpoint", Json.obj [
        ("scope", Json.obj [
          ("type", Json.str "BearerToken"),
          ("token", token)]),
        ("endpointId", endpointId)]),
      ("payload", Json.obj [])])]

/-- The `AcceptGrant.Response` dict built in the `Alexa.Authorization`
branch of `handle_non_discovery_v3`. -/
def accept_grant_response (env : Env) : Json :=
  Json.obj [
    ("event", Json.obj [
      ("header", Json.obj [
        ("namespace", Json.str "Alexa.Authorization"),
        ("name", Json.str "AcceptGrant.Response"),
        ("payloadVersion", Json.str "3"),
        ("messageId", Json.str env.uuid)]),
      ("payload", Json.obj [])])]

/-- The `ErrorResponse` dict built in the `Alexa.CameraStreamController`
branch of `handle_non_discovery_v3` when the bearer token matches no
users-table item. -/
def camera_error_response (env : Env) (correlationToken : Json) : Json :=
  Json.obj [
    ("event", Json.obj [
      ("header", Json.obj [
        ("namespace", Json.str "Alexa"),
        ("name", Json.str "ErrorResponse"),
        ("messageId", Json.str env.uuid),
        ("correlationToken", correlationToken),
        ("payloadVersion", Json.str "3")]),
      ("endpoint", Json.obj [
        ("endpointId", Json.str "endpoint-001")]),
      ("payload", Json.obj [
        ("type", Json.str "INVALID_AUTHORIZATION_CREDENTIAL"),
        ("message", Json.str "Unable to reach endpoint 01 because the authorization was incorrect!")])])]

/-- The success response dict built in the `Alexa.CameraStreamController`
branch of `handle_non_discovery_v3`: `stream_uri` and `imageUri` are
assembled from the matched user record via `urlparse`. -/
def camera_stream_response (env : Env) (correlationToken bearer_token : Json)
    (user : UserRecord) : Json :=
  Json.obj [
    ("context", Json.obj [
      ("properties", Json.arr [Json.obj [
        ("namespace", Json.str "Alexa.EndpointHealth"),
        ("name", Json.str "connectivity"),
        ("value", Json.obj [("value", Json.str "OK")]),
        ("timeOfSample", Json.str env.nowTimestamp),
        ("uncertaintyInMilliseconds", Json.num 200)]])]),
    ("event", Json.obj [
      ("header", Json.obj [
        ("namespace", Json.str "Alexa.CameraStreamController"),
        ("name", Json.str "Response"),
        ("payloadVersion", Json.str "3"),
        ("messageId", Json.str env.uuid),
        ("correlationToken", correlationToken)]),
      ("endpoint", Json.obj [
        ("scope", Json.obj [
          ("type", Json.str "BearerToken"),
          ("token", bearer_token)]),
        ("endpointId", Json.str "endpoint-001")]),
      ("payload", Json.obj [
        ("cameraStreams", Json.arr [Json.obj [
          ("uri", Json.str ("rtsp://" ++ env.urlHostname user.client_endpoint.url ++ ":8554/live")),
          ("expirationTime", Json.str "2019-09-27T20:30:30.45Z"),
          ("idleTimeoutSeconds", Json.num 300),
          ("protocol", Json.str "RTSP"),
          ("resolution", Json.obj [
            ("width", Json.num 640),
            ("height", Json.num 480)]),
          ("authorizationType", Json.str "NONE"),
          ("videoCodec", Json.str "H264"),
          ("audioCodec", Json.str "NONE")]]),
        ("imageUri", Json.str ("http://" ++ user.client_endpoint.username ++ ":" ++
          user.client_endpoint.password ++ "@" ++ env.urlHostname user.client_endpoint.url ++
          ":" ++ env.urlPort user.client_endpoint.url ++ "/frame"))])])]

/-- `handle_non_discovery_v3(request)`.  `Alexa`/`ReportState`,
`Alexa.PowerController` (any name: `TurnOn` gives "ON", every other name
the `else` branch "OFF"), `Alexa.Authorization`/`AcceptGrant`, and
`Alexa.CameraStreamController` (any name: the users-table scan runs
regardless, the `value = "OK"` assignment is dead).  Falling out of the
chain, or past an unmatched inner `if`, returns `None`. -/
def handle_non_discovery_v3 (env : Env) (request : Json) : Except PyErr (Option Json) := do
  let request_namespace ← request.getPath ["directive", "header", "namespace"]
  let request_name ← request.getPath ["directive", "header", "name"]
  if request_namespace.eqStr "Alexa" then
    if request_name.eqStr "ReportState" then do
      let correlationToken ← request.getPath ["directive", "header", "correlationToken"]
      let token ← request.getPath ["directive", "endpoint", "scope", "token"]
      pure (some (state_report_response env correlationToken token))
    else
      pure none
  else if request_namespace.eqStr "Alexa.PowerController" then do
    let value := if request_name.eqStr "TurnOn" then "ON" else "OFF"
    let correlationToken ← request.getPath ["directive", "header", "correlationToken"]
    let token ← request.getPath ["directive", "endpoint", "scope", "token"]
    let endpointId ← request.getPath ["directive", "endpoint", "endpointId"]
    pure (some (power_controller_response env value correlationToken token endpointId))
  else if request_namespace.eqStr "Alexa.Authorization" then
    if request_name.eqStr "AcceptGrant" then
      pure (some (accept_grant_response env))
    else
      pure none
  else if request_namespace.eqStr "Alexa.CameraStreamController" then do
    let bearer_token ← request.getPath ["directive", "endpoint", "scope", "token"]
    let user := env.users.filter (fun u => bearer_token.eqStr u.stream_token)
    match user with
    | [] => do
      let correlationToken ← request.getPath ["directive", "header", "correlationToken"]
      pure (some (camera_error_response env correlationToken))
    | u :: _ => do
      let correlationToken ← request.getPath ["directive", "header", "correlationToken"]
      pure (some (camera_stream_response env correlationToken bearer_token u))
  else
    -- `logger.error(...)` and implicit `return None`
    pure none

/-- The body of `lambda_handler`'s `try` block: version detection, routing
to the four handlers, and the v3-only `validate_message` call (failure
raises `ValueError`, matching the `except ValueError` arm that re-raises). -/
def lambda_handler_body (env : Env) (request : Json) : Except PyErr (Option Json) := do
  let version := get_directive_version request
  let response ←
    if version.eqStr "3" then do
      let name ← request.getPath ["directive", "header", "name"]
      if name.eqStr "Discover" then do
        let r ← handle_discovery_v3 env request
        pure (some r)
      else
        handle_non_discovery_v3 env request
    else do
      let ns ← request.getPath ["header", "namespace"]
      if ns.eqStr "Alexa.ConnectedHome.Discovery" then
        pure (some (handle_discovery env))
      else do
        let r ← handle_non_discovery env request
        pure (some r)
  if version.eqStr "3" then
    if env.validateOk request response then
      pure response
    else
      Except.error PyErr.valueError
  else
    pure response

/-- `lambda_handler(request, context)`: the `if 'directive' not in request:
return` guard, then the `try` block; `except KeyError` logs and returns
`None`, `except ValueError` re-raises, anything else propagates. -/
def lambda_handler (env : Env) (request : Json) : Except PyErr (Option Json) :=
  if request.hasKey "directive" then
    match lambda_handler_body env request with
    | .error (.keyError _) => .ok none
    | .error e => .error e
    | .ok r => .ok r
  else
    .ok none

/-- A concrete environment for evaluating handlers on sample inputs. -/
def testEnv : Env where
  uuid := "uuid-0"
  utcTimestamp := "2026-01-01T00:00:00.00Z"
  nowTimestamp := "2026-01-01T00:00:00.000000Z"
  users := []
  urlHostname := fun _ => "camera.example"
  urlPort := fun _ => "8080"
  validateOk := fun _ _ => true

/-- Like `testEnv` but the external validator rejects every response. -/
def rejectingEnv : Env :=
  { testEnv with validateOk := fun _ _ => false }

/-- Like `testEnv` but the users table holds one record with
`stream_token` "tok-1". -/
def oneUserEnv : Env :=
  { testEnv with users :=
      [{ stream_token := "tok-1",
         client_endpoint :=
           { url := "http://u:p@camera.example:8080/", username := "u", password := "p" } }] }

/-- A well-formed modern (v3) directive with the given namespace, name,
correlation token, endpoint id and bearer token. -/
def mkV3Request (ns name ct eid tok : String) : Json :=
  Json.obj [("directive", Json.obj [
    ("header", Json.obj [
      ("namespace", Json.str ns),
      ("name", Json.str name),
      ("payloadVersion", Json.str "3"),
      ("messageId", Json.str "mid-1"),
      ("correlationToken", Json.str ct)]),
    ("endpoint", Json.obj [
      ("scope", Json.obj [("type", Json.str "BearerToken"), ("token", Json.str tok)]),
      ("endpointId", Json.str eid)])])]

/-- A legacy discovery request with no top-level `directive` key. -/
def legacyDiscoveryRequest : Json :=
  Json.obj [("header", Json.obj [
    ("namespace", Json.str "Alexa.ConnectedHome.Discovery"),
    ("name", Json.str "DiscoverAppliancesRequest"),
    ("payloadVersion", Json.str "2"),
    ("messageId", Json.str "mid-2")])]

/-- The same legacy discovery request with a (vacuous) top-level
`directive` key added, so it passes the dispatcher's guard. -/
def legacyDiscoveryRequestWithDirective : Json :=
  Json.obj [
    ("directive", Json.obj []),
    ("header", Json.obj [
      ("namespace", Json.str "Alexa.ConnectedHome.Discovery"),
      ("name", Json.str "DiscoverAppliancesRequest"),
      ("payloadVersion", Json.str "2"),
      ("messageId", Json.str "mid-2")])]

/-- A request whose `directive` key is present but empty and which has no
legacy `header` either: routing it raises a `KeyError`. -/
def emptyDirectiveRequest : Json :=
  Json.obj [("directive", Json.obj [])]

/-- A v3 `Discover` directive. -/
def discoverV3Request : Json :=
  Json.obj [("directive", Json.obj [
    ("header", Json.obj [
      ("namespace", Json.str "Alexa.Discovery"),
      ("name", Json.str "Discover"),
      ("payloadVersion", Json.str "3"),
      ("messageId", Json.str "mid-3")])])]

/-- A legacy control request whose name is neither `TurnOnRequest` nor
`TurnOffRequest`. -/
def legacyDimRequest : Json :=
  Json.obj [("header", Json.obj [
    ("namespace", Json.str "Alexa.ConnectedHome.Control"),
    ("name", Json.str "DimRequest"),
    ("payloadVersion", Json.str "2"),
    ("messageId", Json.str "mid-4")])]

theorem ok_bind {α β : Type} (a : α) (f : α → Except PyErr β) :
    (Except.ok a >>= f) = f a := rfl

theorem error_bind {α β : Type} (e : PyErr) (f : α → Except PyErr β) :
    ((Except.error e : Except PyErr α) >>= f) = Except.error e := rfl

/-- `get_display_categories_from_v2_appliance` succeeds whenever the record
has a `modelName` field. -/
theorem display_categories_ok (appliance model : Json)
    (h : appliance.getItem "modelName" = .ok model) :
    ∃ cats, get_display_categories_from_v2_appliance appliance = .ok cats := by
  simp only [get_display_categories_from_v2_appliance, h, ok_bind]
  split_ifs <;> exact ⟨_, rfl⟩

/-- `get_capabilities_from_v2_appliance` succeeds whenever the record has a
`modelName` field. -/
theorem capabilities_ok (appliance model : Json)
    (h : appliance.getItem "modelName" = .ok model) :
    ∃ caps, get_capabilities_from_v2_appliance appliance = .ok caps := by
  simp only [get_capabilities_from_v2_appliance, h, ok_bind]
  exact ⟨_, rfl⟩

/-- Claim C4 (confirmed): for every raw request, `get_directive_version`
returns the value at `directive.header.payloadVersion` when that nested
path exists, otherwise the value at `header.payloadVersion` when that path
exists, otherwise the sentinel "-1"; it is a total function, so no
exception escapes for any input shape.  The last three conjuncts check the
spec's three sample vectors. -/
theorem C4_version_detector :
    (∀ r : Json,
      match r.getPath ["directive", "header", "payloadVersion"],
            r.getPath ["header", "payloadVersion"] with
      | .ok v, _ => get_directive_version r = v
      | .error _, .ok v => get_directive_version r = v
      | .error _, .error _ => get_directive_version r = Json.str "-1") ∧
    get_directive_version (Json.obj [("directive",
      Json.obj [("header", Json.obj [("payloadVersion", Json.str "3")])])]) = Json.str "3" ∧
    get_directive_version (Json.obj [("header",
      Json.obj [("payloadVersion", Json.str "2")])]) = Json.str "2" ∧
    get_directive_version (Json.obj []) = Json.str "-1" := by
  refine ⟨?_, rfl, rfl, rfl⟩
  intro r
  cases h1 : r.getPath ["directive", "header", "payloadVersion"] with
  | error e1 =>
    cases h2 : r.getPath ["header", "payloadVersion"] with
    | error e2 => simp [get_directive_version, h1, h2]
    | ok v => simp [get_directive_version, h1, h2]
  | ok v => simp [get_directive_version, h1]

/-- Claim C5 (confirmed): for every appliance record carrying a
`modelName`, the inferred capability list has length at least two, starts
with the model-specific descriptor (camera streaming for "Smart Camera",
power control otherwise), and ends with exactly one endpoint-health
descriptor followed by exactly one base "Alexa" descriptor, in that
order. -/
theorem C5_capability_invariant (appliance model : Json)
    (h : appliance.getItem "modelName" = .ok model) :
    ∃ caps, get_capabilities_from_v2_appliance appliance = .ok caps ∧
      2 ≤ caps.length ∧
      caps.head? = some (if model.eqStr "Smart Camera" then camera_stream_capability
                         else power_controller_capability) ∧
      caps.drop (caps.length - 2) = [endpoint_health_capability, alexa_interface_capability] ∧
      (caps.filter (fun c => match c.getItem "interface" with
        | .ok v => v.eqStr "Alexa.EndpointHealth"
        | .error _ => false)).length = 1 ∧
      (caps.filter (fun c => match c.getItem "interface" with
        | .ok v => v.eqStr "Alexa"
        | .error _ => false)).length = 1 := by
  cases hm : model.eqStr "Smart Camera" with
  | true =>
    refine ⟨[camera_stream_capability, endpoint_health_capability, alexa_interface_capability],
      ?_, ?_, ?_, ?_, ?_, ?_⟩
    · simp [get_capabilities_from_v2_appliance, h, hm, ok_bind]
    · decide
    · simp [hm]
    · rfl
    · rfl
    · rfl
  | false =>
    refine ⟨[power_controller_capability, endpoint_health_capability, alexa_interface_capability],
      ?_, ?_, ?_, ?_, ?_, ?_⟩
    · simp [get_capabilities_from_v2_appliance, h, hm, ok_bind]
    · decide
    · simp [hm]
    · rfl
    · rfl
    · rfl

/-- Witness for C5 at the catalog's own record ("Smart Camera"). -/
theorem C5_capability_invariant_witness :
    (Json.obj [("modelName", Json.str "Smart Camera")]).getItem "modelName" =
      .ok (Json.str "Smart Camera") ∧
    (∃ caps, get_capabilities_from_v2_appliance
        (Json.obj [("modelName", Json.str "Smart Camera")]) = .ok caps ∧
      2 ≤ caps.length ∧
      caps.head? = some (if (Json.str "Smart Camera").eqStr "Smart Camera"
                         then camera_stream_capability
                         else power_controller_capability) ∧
      caps.drop (caps.length - 2) = [endpoint_health_capability, alexa_interface_capability] ∧
      (caps.filter (fun c => match c.getItem "interface" with
        | .ok v => v.eqStr "Alexa.EndpointHealth"
        | .error _ => false)).length = 1 ∧
      (caps.filter (fun c => match c.getItem "interface" with
        | .ok v => v.eqStr "Alexa"
        | .error _ => false)).length = 1) :=
  ⟨rfl, C5_capability_invariant (Json.obj [("modelName", Json.str "Smart Camera")])
    (Json.str "Smart Camera") rfl⟩

/-- Claim C8 (confirmed): for every appliance record with the required
fields present, the endpoint produced by the legacy-to-modern mapping has
`endpointId` equal to the record's `applianceId`, and its manufacturer
name, friendly name, description and cookie are direct copies of the
record's corresponding fields. -/
theorem C8_endpoint_direct_copies (appliance aid man fn fd det model : Json)
    (h1 : appliance.getItem "applianceId" = .ok aid)
    (h2 : appliance.getItem "manufacturerName" = .ok man)
    (h3 : appliance.getItem "friendlyName" = .ok fn)
    (h4 : appliance.getItem "friendlyDescription" = .ok fd)
    (h5 : appliance.getItem "additionalApplianceDetails" = .ok det)
    (h6 : appliance.getItem "modelName" = .ok model) :
    ∃ ep, get_endpoint_from_v2_appliance appliance = .ok ep ∧
      ep.getItem "endpointId" = .ok aid ∧
      ep.getItem "manufacturerName" = .ok man ∧
      ep.getItem "friendlyName" = .ok fn ∧
      ep.getItem "description" = .ok fd ∧
      ep.getItem "cookie" = .ok det := by
  obtain ⟨cats, hcats⟩ := display_categories_ok appliance model h6
  obtain ⟨caps, hcaps⟩ := capabilities_ok appliance model h6
  refine ⟨Json.obj [
      ("endpointId", aid),
      ("manufacturerName", man),
      ("friendlyName", fn),
      ("description", fd),
      ("displayCategories", cats),
      ("cookie", det),
      ("capabilities", Json.arr caps)], ?_, rfl, rfl, rfl, rfl, rfl⟩
  simp [get_endpoint_from_v2_appliance, h1, h2, h3, h4, h5, hcats, hcaps, ok_bind]

/-- Witness for C8 at the catalog's own record. -/
theorem C8_endpoint_direct_copies_witness :
    (∃ ep, get_endpoint_from_v2_appliance (APPLIANCE.headI) = .ok ep ∧
      ep.getItem "endpointId" = .ok (Json.str "endpoint-001") ∧
      ep.getItem "manufacturerName" = .ok (Json.str "Smart Doorman") ∧
      ep.getItem "friendlyName" = .ok (Json.str "Smart Camera") ∧
      ep.getItem "description" =
        .ok (Json.str "Camera that tells you what\x27s there using machine learning") ∧
      ep.getItem "cookie" = .ok (Json.obj [])) :=
  C8_endpoint_direct_copies APPLIANCE.headI
    (Json.str "endpoint-001") (Json.str "Smart Doorman") (Json.str "Smart Camera")
    (Json.str "Camera that tells you what\x27s there using machine learning")
    (Json.obj []) (Json.str "Smart Camera") rfl rfl rfl rfl rfl rfl

/-- Claim C9 (confirmed): for every legacy control request whose
`header.name` is neither "TurnOnRequest" nor "TurnOffRequest", the legacy
non-discovery handler hits the unassigned local `header` when building the
response and fails with an unbound-local error, so it is not total over
legacy control requests. -/
theorem C9_legacy_handler_unbound_local (env : Env) (request : Json) (name : String)
    (hname : request.getPath ["header", "name"] = .ok (Json.str name))
    (h1 : name ≠ "TurnOnRequest") (h2 : name ≠ "TurnOffRequest") :
    handle_non_discovery env request = .error .unboundLocalError := by
  simp [handle_non_discovery, hname, ok_bind, Json.eqStr, h1, h2]

/-- Witness for C9: a legacy `DimRequest` makes the handler fail. -/
theorem C9_legacy_handler_unbound_local_witness :
    legacyDimRequest.getPath ["header", "name"] = .ok (Json.str "DimRequest") ∧
    handle_non_discovery testEnv legacyDimRequest = .error .unboundLocalError :=
  ⟨rfl, C9_legacy_handler_unbound_local testEnv legacyDimRequest "DimRequest"
    rfl (by decide) (by decide)⟩

/-- Claim C6 (confirmed): for every modern CameraStreamController
"InitializeCameraStreams" directive whose bearer-scope token matches no
users-table record, the handler returns an `ErrorResponse` envelope whose
`payload.type` is "INVALID_AUTHORIZATION_CREDENTIAL" instead of
propagating a lookup fault. -/
theorem C6_camera_invalid_credential (env : Env) (request ct token : Json)
    (hns : request.getPath ["directive", "header", "namespace"] =
      .ok (Json.str "Alexa.CameraStreamController"))
    (hname : request.getPath ["directive", "header", "name"] =
      .ok (Json.str "InitializeCameraStreams"))
    (htok : request.getPath ["directive", "endpoint", "scope", "token"] = .ok token)
    (hct : request.getPath ["directive", "header", "correlationToken"] = .ok ct)
    (hnouser : env.users.filter (fun u => token.eqStr u.stream_token) = []) :
    handle_non_discovery_v3 env request = .ok (some (camera_error_response env ct)) ∧
    (camera_error_response env ct).getPath ["event", "header", "name"] =
      .ok (Json.str "ErrorResponse") ∧
    (camera_error_response env ct).getPath ["event", "payload", "type"] =
      .ok (Json.str "INVALID_AUTHORIZATION_CREDENTIAL") := by
  refine ⟨?_, rfl, rfl⟩
  simp only [Json.eqStr] at hnouser
  simp [handle_non_discovery_v3, hns, hname, htok, hct, hnouser, ok_bind, Json.eqStr]

/-- Witness for C6: a concrete camera directive with a token absent from
the (empty) users table. -/
theorem C6_camera_invalid_credential_witness :
    (mkV3Request "Alexa.CameraStreamController" "InitializeCameraStreams"
        "ct-6" "endpoint-001" "no-such-token").getPath
        ["directive", "endpoint", "scope", "token"] = .ok (Json.str "no-such-token") ∧
    testEnv.users.filter (fun u => (Json.str "no-such-token").eqStr u.stream_token) = [] ∧
    handle_non_discovery_v3 testEnv
        (mkV3Request "Alexa.CameraStreamController" "InitializeCameraStreams"
          "ct-6" "endpoint-001" "no-such-token") =
      .ok (some (camera_error_response testEnv (Json.str "ct-6"))) :=
  ⟨rfl, rfl,
    (C6_camera_invalid_credential testEnv
      (mkV3Request "Alexa.CameraStreamController" "InitializeCameraStreams"
        "ct-6" "endpoint-001" "no-such-token")
      (Json.str "ct-6") (Json.str "no-such-token") rfl rfl rfl rfl rfl).1⟩

/-- Claim C7 (confirmed): for every modern PowerController "TurnOn"
directive carrying correlation token "abc123" and endpoint id
"endpoint-001", the response echoes the correlation token unchanged into
`event.header.correlationToken`, its context holds exactly one property
report (namespace "Alexa.PowerController", name "powerState", value "ON",
uncertainty 500 ms), and `event.endpoint.endpointId` is "endpoint-001". -/
theorem C7_power_turn_on (env : Env) (request token : Json)
    (hns : request.getPath ["directive", "header", "namespace"] =
      .ok (Json.str "Alexa.PowerController"))
    (hname : request.getPath ["directive", "header", "name"] = .ok (Json.str "TurnOn"))
    (hct : request.getPath ["directive", "header", "correlationToken"] =
      .ok (Json.str "abc123"))
    (htok : request.getPath ["directive", "endpoint", "scope", "token"] = .ok token)
    (heid : request.getPath ["directive", "endpoint", "endpointId"] =
      .ok (Json.str "endpoint-001")) :
    ∃ r, handle_non_discovery_v3 env request = .ok (some r) ∧
      r.getPath ["event", "header", "correlationToken"] = .ok (Json.str "abc123") ∧
      r.getPath ["event", "endpoint", "endpointId"] = .ok (Json.str "endpoint-001") ∧
      r.getPath ["context", "properties"] = .ok (Json.arr [Json.obj [
        ("namespace", Json.str "Alexa.PowerController"),
        ("name", Json.str "powerState"),
        ("value", Json.str "ON"),
        ("timeOfSample", Json.str env.utcTimestamp),
        ("uncertaintyInMilliseconds", Json.num 500)]]) := by
  refine ⟨power_controller_response env "ON" (Json.str "abc123") token
    (Json.str "endpoint-001"), ?_, rfl, rfl, rfl⟩
  simp [handle_non_discovery_v3, hns, hname, hct, htok, heid, ok_bind, Json.eqStr]

/-- Witness for C7 at a concrete TurnOn directive. -/
theorem C7_power_turn_on_witness :
    ∃ r, handle_non_discovery_v3 testEnv
        (mkV3Request "Alexa.PowerController" "TurnOn" "abc123" "endpoint-001" "tok-7") =
      .ok (some r) ∧
      r.getPath ["event", "header", "correlationToken"] = .ok (Json.str "abc123") ∧
      r.getPath ["event", "endpoint", "endpointId"] = .ok (Json.str "endpoint-001") ∧
      r.getPath ["context", "properties"] = .ok (Json.arr [Json.obj [
        ("namespace", Json.str "Alexa.PowerController"),
        ("name", Json.str "powerState"),
        ("value", Json.str "ON"),
        ("timeOfSample", Json.str testEnv.utcTimestamp),
        ("uncertaintyInMilliseconds", Json.num 500)]]) :=
  C7_power_turn_on testEnv
    (mkV3Request "Alexa.PowerController" "TurnOn" "abc123" "endpoint-001" "tok-7")
    (Json.str "tok-7") rfl rfl rfl rfl rfl

/-- Claim C10 (confirmed): the `ReportState` response and both camera
responses (error and success) carry the constant `event.endpoint.endpointId`
"endpoint-001", ignoring the endpoint identifier in the directive; only the
PowerController branch echoes the request's `endpointId`. -/
theorem C10_hardcoded_endpoint_id (env : Env) :
    (∀ request ct token,
      request.getPath ["directive", "header", "namespace"] = .ok (Json.str "Alexa") →
      request.getPath ["directive", "header", "name"] = .ok (Json.str "ReportState") →
      request.getPath ["directive", "header", "correlationToken"] = .ok ct →
      request.getPath ["directive", "endpoint", "scope", "token"] = .ok token →
      ∃ r, handle_non_discovery_v3 env request = .ok (some r) ∧
        r.getPath ["event", "endpoint", "endpointId"] = .ok (Json.str "endpoint-001")) ∧
    (∀ request ct token,
      request.getPath ["directive", "header", "namespace"] =
        .ok (Json.str "Alexa.CameraStreamController") →
      request.getPath ["directive", "header", "name"] =
        .ok (Json.str "InitializeCameraStreams") →
      request.getPath ["directive", "endpoint", "scope", "token"] = .ok token →
      request.getPath ["directive", "header", "correlationToken"] = .ok ct →
      env.users.filter (fun u => token.eqStr u.stream_token) = [] →
      ∃ r, handle_non_discovery_v3 env request = .ok (some r) ∧
        r.getPath ["event", "endpoint", "endpointId"] = .ok (Json.str "endpoint-001")) ∧
    (∀ request ct token u us,
      request.getPath ["directive", "header", "namespace"] =
        .ok (Json.str "Alexa.CameraStreamController") →
      request.getPath ["directive", "header", "name"] =
        .ok (Json.str "InitializeCameraStreams") →
      request.getPath ["directive", "endpoint", "scope", "token"] = .ok token →
      request.getPath ["directive", "header", "correlationToken"] = .ok ct →
      env.users.filter (fun u => token.eqStr u.stream_token) = u :: us →
      ∃ r, handle_non_discovery_v3 env request = .ok (some r) ∧
        r.getPath ["event", "endpoint", "endpointId"] = .ok (Json.str "endpoint-001")) ∧
    (∀ request ct token eid,
      request.getPath ["directive", "header", "namespace"] =
        .ok (Json.str "Alexa.PowerController") →
      request.getPath ["directive", "header", "name"] = .ok (Json.str "TurnOn") →
      request.getPath ["directive", "header", "correlationToken"] = .ok ct →
      request.getPath ["directive", "endpoint", "scope", "token"] = .ok token →
      request.getPath ["directive", "endpoint", "endpointId"] = .ok eid →
      ∃ r, handle_non_discovery_v3 env request = .ok (some r) ∧
        r.getPath ["event", "endpoint", "endpointId"] = .ok eid) := by
  refine ⟨?_, ?_, ?_, ?_⟩
  · intro request ct token hns hname hct htok
    refine ⟨state_report_response env ct token, ?_, rfl⟩
    simp [handle_non_discovery_v3, hns, hname, hct, htok, ok_bind, Json.eqStr]
  · intro request ct token hns hname htok hct hnouser
    refine ⟨camera_error_response env ct, ?_, rfl⟩
    simp only [Json.eqStr] at hnouser
    simp [handle_non_discovery_v3, hns, hname, htok, hct, hnouser, ok_bind, Json.eqStr]
  · intro request ct token u us hns hname htok hct huser
    refine ⟨camera_stream_response env ct token u, ?_, rfl⟩
    simp only [Json.eqStr] at huser
    simp [handle_non_discovery_v3, hns, hname, htok, hct, huser, ok_bind, Json.eqStr]
  · intro request ct token eid hns hname hct htok heid
    refine ⟨power_controller_response env "ON" ct token eid, ?_, rfl⟩
    simp [handle_non_discovery_v3, hns, hname, hct, htok, heid, ok_bind, Json.eqStr]

/-- Witness for C10: concrete directives whose endpoint id is "endpoint-777"
still produce responses pinned to "endpoint-001" (ReportState and both
camera outcomes), while PowerController echoes "endpoint-777". -/
theorem C10_hardcoded_endpoint_id_witness :
    (∃ r, handle_non_discovery_v3 oneUserEnv
        (mkV3Request "Alexa" "ReportState" "ct-a" "endpoint-777" "tok-9") = .ok (some r) ∧
      r.getPath ["event", "endpoint", "endpointId"] = .ok (Json.str "endpoint-001")) ∧
    (∃ r, handle_non_discovery_v3 oneUserEnv
        (mkV3Request "Alexa.CameraStreamController" "InitializeCameraStreams"
          "ct-b" "endpoint-777" "tok-9") = .ok (some r) ∧
      r.getPath ["event", "endpoint", "endpointId"] = .ok (Json.str "endpoint-001")) ∧
    (∃ r, handle_non_discovery_v3 oneUserEnv
        (mkV3Request "Alexa.CameraStreamController" "InitializeCameraStreams"
          "ct-c" "endpoint-777" "tok-1") = .ok (some r) ∧
      r.getPath ["event", "endpoint", "endpointId"] = .ok (Json.str "endpoint-001")) ∧
    (∃ r, handle_non_discovery_v3 oneUserEnv
        (mkV3Request "Alexa.PowerController" "TurnOn" "ct-d" "endpoint-777" "tok-9") =
      .ok (some r) ∧
      r.getPath ["event", "endpoint", "endpointId"] = .ok (Json.str "endpoint-777")) :=
  ⟨(C10_hardcoded_endpoint_id oneUserEnv).1
      (mkV3Request "Alexa" "ReportState" "ct-a" "endpoint-777" "tok-9")
      (Json.str "ct-a") (Json.str "tok-9") rfl rfl rfl rfl,
   (C10_hardcoded_endpoint_id oneUserEnv).2.1
      (mkV3Request "Alexa.CameraStreamController" "InitializeCameraStreams"
        "ct-b" "endpoint-777" "tok-9")
      (Json.str "ct-b") (Json.str "tok-9") rfl rfl rfl rfl rfl,
   (C10_hardcoded_endpoint_id oneUserEnv).2.2.1
      (mkV3Request "Alexa.CameraStreamController" "InitializeCameraStreams"
        "ct-c" "endpoint-777" "tok-1")
      (Json.str "ct-c") (Json.str "tok-1")
      { stream_token := "tok-1",
        client_endpoint :=
          { url := "http://u:p@camera.example:8080/", username := "u", password := "p" } }
      [] rfl rfl rfl rfl rfl,
   (C10_hardcoded_endpoint_id oneUserEnv).2.2.2
      (mkV3Request "Alexa.PowerController" "TurnOn" "ct-d" "endpoint-777" "tok-9")
      (Json.str "ct-d") (Json.str "tok-9") (Json.str "endpoint-777") rfl rfl rfl rfl rfl⟩

/-- Counterexample to claim C1 as stated: a legacy discovery request with
no top-level `directive` field (`header.namespace` is
"Alexa.ConnectedHome.Discovery") makes the dispatcher return `None` at the
initial guard — no response envelope at all, hence no
`discoveredAppliances` payload. -/
theorem C1_counterexample :
    lambda_handler testEnv legacyDiscoveryRequest = .ok none ∧
    ∀ r, lambda_handler testEnv legacyDiscoveryRequest ≠ .ok (some r) := by
  refine ⟨rfl, fun r => ?_⟩
  simp [show lambda_handler testEnv legacyDiscoveryRequest = .ok none from rfl]

/-- Claim C1 (amended): a request lacking a top-level `directive` field
gets no response at all (the dispatcher returns immediately); the legacy
discovery path runs only for requests that do contain `directive`, whose
detected version is not "3", and whose `header.namespace` is
"Alexa.ConnectedHome.Discovery" — and then the response's
`payload.discoveredAppliances` is the raw catalog verbatim. -/
theorem C1_amended_legacy_discovery (env : Env) (request : Json) :
    (request.hasKey "directive" = false → lambda_handler env request = .ok none) ∧
    (request.hasKey "directive" = true →
     (get_directive_version request).eqStr "3" = false →
     request.getPath ["header", "namespace"] = .ok (Json.str "Alexa.ConnectedHome.Discovery") →
     lambda_handler env request = .ok (some (handle_discovery env)) ∧
     (handle_discovery env).getPath ["payload", "discoveredAppliances"] =
       .ok (Json.arr APPLIANCE)) := by
  constructor
  · intro h
    simp [lambda_handler, h]
  · intro hdir hver hns
    refine ⟨?_, rfl⟩
    have hlit : Json.eqStr (Json.str "Alexa.ConnectedHome.Discovery")
        "Alexa.ConnectedHome.Discovery" = true := rfl
    simp [lambda_handler, lambda_handler_body, hdir, hver, hns, hlit, ok_bind]
    rfl

/-- Witness for the amended C1, at a guard-rejected request and at a
guard-passing legacy discovery request. -/
theorem C1_amended_legacy_discovery_witness :
    (legacyDiscoveryRequest.hasKey "directive" = false ∧
     lambda_handler testEnv legacyDiscoveryRequest = .ok none) ∧
    (legacyDiscoveryRequestWithDirective.hasKey "directive" = true ∧
     (get_directive_version legacyDiscoveryRequestWithDirective).eqStr "3" = false ∧
     lambda_handler testEnv legacyDiscoveryRequestWithDirective =
       .ok (some (handle_discovery testEnv)) ∧
     (handle_discovery testEnv).getPath ["payload", "discoveredAppliances"] =
       .ok (Json.arr APPLIANCE)) :=
  ⟨⟨rfl, (C1_amended_legacy_discovery testEnv legacyDiscoveryRequest).1 rfl⟩,
   ⟨rfl, rfl,
    ((C1_amended_legacy_discovery testEnv legacyDiscoveryRequestWithDirective).2
      rfl rfl rfl).1,
    ((C1_amended_legacy_discovery testEnv legacyDiscoveryRequestWithDirective).2
      rfl rfl rfl).2⟩⟩

/-- Counterexample to claim C2 as stated: routing `emptyDirectiveRequest`
raises a `KeyError` (no legacy `header` to fall back on), yet the
dispatcher swallows it and returns `None` — the fault is never surfaced to
the caller as an error. -/
theorem C2_counterexample :
    lambda_handler_body testEnv emptyDirectiveRequest = .error (.keyError "header") ∧
    lambda_handler testEnv emptyDirectiveRequest = .ok none ∧
    ∀ e, lambda_handler testEnv emptyDirectiveRequest ≠ .error e := by
  refine ⟨rfl, rfl, fun e => ?_⟩
  simp [show lambda_handler testEnv emptyDirectiveRequest = .ok none from rfl]

/-- Claim C2 (amended): a field-access (`KeyError`) fault inside the
dispatch body is recorded (logged) and swallowed — the dispatcher returns
`None` rather than surfacing an error; only `ValueError` faults (the
response-validation failures) are re-raised to the caller. -/
theorem C2_amended_keyerror_swallowed (env : Env) (request : Json) :
    (∀ k, lambda_handler_body env request = .error (.keyError k) →
      lambda_handler env request = .ok none) ∧
    (request.hasKey "directive" = true →
     lambda_handler_body env request = .error .valueError →
     lambda_handler env request = .error .valueError) := by
  constructor
  · intro k h
    cases hk : request.hasKey "directive" <;> simp [lambda_handler, hk, h]
  · intro hk h
    simp [lambda_handler, hk, h]

/-- Witness for the amended C2: the swallowed `KeyError` on
`emptyDirectiveRequest`, and a propagated `ValueError` when the external
validator rejects the v3 discovery response. -/
theorem C2_amended_keyerror_swallowed_witness :
    (lambda_handler_body testEnv emptyDirectiveRequest = .error (.keyError "header") ∧
     lambda_handler testEnv emptyDirectiveRequest = .ok none) ∧
    (discoverV3Request.hasKey "directive" = true ∧
     lambda_handler_body rejectingEnv discoverV3Request = .error .valueError ∧
     lambda_handler rejectingEnv discoverV3Request = .error .valueError) :=
  ⟨⟨rfl, (C2_amended_keyerror_swallowed testEnv emptyDirectiveRequest).1 "header" rfl⟩,
   ⟨rfl, rfl, (C2_amended_keyerror_swallowed rejectingEnv discoverV3Request).2 rfl rfl⟩⟩

/-- Counterexample to claim C3 as stated: a v3 `Alexa.PowerController`
directive named "Dim" (neither "TurnOn" nor "TurnOff") does NOT yield
no-response — the handler's bare `else` treats it as a turn-off and
returns a full response with `powerState` "OFF". -/
theorem C3_counterexample :
    handle_non_discovery_v3 testEnv
        (mkV3Request "Alexa.PowerController" "Dim" "ct-dim" "e-9" "tok-dim") =
      .ok (some (power_controller_response testEnv "OFF"
        (Json.str "ct-dim") (Json.str "tok-dim") (Json.str "e-9"))) ∧
    handle_non_discovery_v3 testEnv
        (mkV3Request "Alexa.PowerController" "Dim" "ct-dim" "e-9" "tok-dim") ≠ .ok none := by
  refine ⟨rfl, ?_⟩
  simp [show handle_non_discovery_v3 testEnv
      (mkV3Request "Alexa.PowerController" "Dim" "ct-dim" "e-9" "tok-dim") =
    .ok (some (power_controller_response testEnv "OFF"
      (Json.str "ct-dim") (Json.str "tok-dim") (Json.str "e-9"))) from rfl]

/-- Claim C3 (amended): a v3 non-Discover directive returns nothing when
its namespace is outside the four handled ones, or when its namespace is
"Alexa" with a name other than "ReportState", or "Alexa.Authorization"
with a name other than "AcceptGrant"; but an "Alexa.PowerController"
directive with any name other than "TurnOn" (not just "TurnOff") takes the
bare `else` branch and returns a full power response with value "OFF". -/
theorem C3_amended_unmatched_directives (env : Env) :
    (∀ request ns name,
      request.getPath ["directive", "header", "namespace"] = .ok (Json.str ns) →
      request.getPath ["directive", "header", "name"] = .ok (Json.str name) →
      ((ns = "Alexa" ∧ name ≠ "ReportState") ∨
       (ns = "Alexa.Authorization" ∧ name ≠ "AcceptGrant") ∨
       (ns ≠ "Alexa" ∧ ns ≠ "Alexa.PowerController" ∧ ns ≠ "Alexa.Authorization" ∧
        ns ≠ "Alexa.CameraStreamController")) →
      handle_non_discovery_v3 env request = .ok none) ∧
    (∀ request name ct token eid,
      request.getPath ["directive", "header", "namespace"] =
        .ok (Json.str "Alexa.PowerController") →
      request.getPath ["directive", "header", "name"] = .ok (Json.str name) →
      name ≠ "TurnOn" →
      request.getPath ["directive", "header", "correlationToken"] = .ok ct →
      request.getPath ["directive", "endpoint", "scope", "token"] = .ok token →
      request.getPath ["directive", "endpoint", "endpointId"] = .ok eid →
      handle_non_discovery_v3 env request =
        .ok (some (power_controller_response env "OFF" ct token eid))) := by
  constructor
  · intro request ns name hns hname h
    rcases h with ⟨h1, h2⟩ | ⟨h1, h2⟩ | ⟨h1, h2, h3, h4⟩
    · subst h1
      simp [handle_non_discovery_v3, hns, hname, ok_bind, Json.eqStr, h2]
      rfl
    · subst h1
      simp [handle_non_discovery_v3, hns, hname, ok_bind, Json.eqStr, h2]
      rfl
    · simp [handle_non_discovery_v3, hns, hname, ok_bind, Json.eqStr, h1, h2, h3, h4]
      rfl
  · intro request name ct token eid hns hname hn hct htok heid
    simp [handle_non_discovery_v3, hns, hname, hct, htok, heid, ok_bind, Json.eqStr, hn]

/-- Witness for the amended C3: an unhandled namespace returns nothing; a
PowerController "TurnOff" returns the "OFF" response through the bare
`else`. -/
theorem C3_amended_unmatched_directives_witness :
    handle_non_discovery_v3 testEnv
        (mkV3Request "Alexa.SceneController" "Activate" "ct-s" "e-1" "tok-s") = .ok none ∧
    handle_non_discovery_v3 testEnv
        (mkV3Request "Alexa.PowerController" "TurnOff" "ct-off" "e-2" "tok-off") =
      .ok (some (power_controller_response testEnv "OFF"
        (Json.str "ct-off") (Json.str "tok-off") (Json.str "e-2"))) :=
  ⟨(C3_amended_unmatched_directives testEnv).1
      (mkV3Request "Alexa.SceneController" "Activate" "ct-s" "e-1" "tok-s")
      "Alexa.SceneController" "Activate" rfl rfl
      (Or.inr (Or.inr ⟨by decide, by decide, by decide, by decide⟩)),
   (C3_amended_unmatched_directives testEnv).2
      (mkV3Request "Alexa.PowerController" "TurnOff" "ct-off" "e-2" "tok-off")
      "TurnOff" (Json.str "ct-off") (Json.str "tok-off") (Json.str "e-2")
      rfl rfl (by decide) rfl rfl rfl⟩
